import Mathlib

/-!
Verification of `gpio_control_node.py` (four-motor GPIO control node).

Python floats are modelled as rationals (`ℚ`).  Every float operation the
program performs is exact in IEEE-754 double precision — negation, and
multiplication of a literal by 0.5 (a scaling by a power of two) — and the
decimal literals involved round in lockstep (the double nearest 0.725 is
exactly half the double nearest 1.45, etc.), so Python's `==` on the values
this program computes coincides with equality of the corresponding rationals;
in particular `-0.0 == 0.0` is true in Python and `-(0 : ℚ) = 0` holds here.

A gpiozero `Servo` channel either carries no signal (`motor.value = None`,
"detached") or carries a PWM signal for a value in [-1, 1]
(`motor.value = v`, "active").  The command file read, the control loop, the
module-level motor initialization and the `finally` teardown are modelled as
explicit state-passing functions over these channel states.
-/

namespace GpioControl

/-- Speed settings from the configuration section of the source. -/
def MAX_SPEED : ℚ := 0.5

/-- Turn-speed constant from the configuration section (unused by the logic). -/
def TURN_SPEED : ℚ := 0.4

/-- `FORWARD = MAX_SPEED`. -/
def FORWARD : ℚ := MAX_SPEED

/-- `BACKWARD = -MAX_SPEED`. -/
def BACKWARD : ℚ := -MAX_SPEED

/-- A drive vector: the four per-channel target values
(front-left, front-right, rear-left, rear-right). -/
structure Vec4 where
  fl : ℚ
  fr : ℚ
  rl : ℚ
  rr : ℚ
deriving DecidableEq, Repr

/-- State of one gpiozero `Servo` channel: `Detached` means `motor.value` is
`None` (no PWM signal at all); `Active v` means `motor.value` is the float
`v` and a PWM signal encoding `v` is being emitted. -/
inductive ChannelState where
  | Detached : ChannelState
  | Active : ℚ → ChannelState
deriving DecidableEq, Repr

/-- The states of the four motors `motor_fl, motor_fr, motor_rl, motor_rr`
(the module-level `all_motors` list, in order). -/
structure Channels where
  fl : ChannelState
  fr : ChannelState
  rl : ChannelState
  rr : ChannelState
deriving DecidableEq, Repr

/-- All four channels detached. -/
def allDetached : Channels :=
  ⟨ChannelState.Detached, ChannelState.Detached,
   ChannelState.Detached, ChannelState.Detached⟩

/-- One iteration of the loop body of `set_speeds`:
`if vals[i] == 0.0: motor.value = None  else: motor.value = vals[i]`. -/
def applyValue (v : ℚ) : ChannelState :=
  if v = 0 then ChannelState.Detached else ChannelState.Active v

/-- `set_speeds(fl_val, fr_val, rl_val, rr_val)`: assigns each motor's value
from the corresponding component, detaching the motor when the component
compares equal to `0.0`.  The previous states are overwritten wholesale. -/
def set_speeds (fl_val fr_val rl_val rr_val : ℚ) (_s : Channels) : Channels :=
  ⟨applyValue fl_val, applyValue fr_val, applyValue rl_val, applyValue rr_val⟩

/-- The branch structure of `steer_vehicle`: the drive vector and the action
label selected by the `if`/`elif` chain on `control_word` (the `else` branch
covers 0 and any invalid input). -/
def steer_branch (control_word : ℤ) : Vec4 × String :=
  if control_word = 1 then
    (⟨FORWARD * 1.45, -FORWARD, FORWARD * 1.45, -FORWARD⟩, "FORWARD")
  else if control_word = 2 then
    (⟨BACKWARD, -BACKWARD * 1.3, BACKWARD, -BACKWARD * 1.3⟩, "BACKWART")
  else if control_word = 3 then
    (⟨FORWARD * 1.5, -BACKWARD * 1.5, BACKWARD * 0.5, -FORWARD * 0.5⟩, "LEFT")
  else if control_word = 4 then
    (⟨BACKWARD * 0.5, -FORWARD * 0.5, FORWARD * 1.5, -BACKWARD * 1.5⟩, "RIGHT")
  else if control_word = 5 then
    (⟨BACKWARD * 1.5, -FORWARD * 1.5, BACKWARD * 1.5, -FORWARD * 1.5⟩, "TURN-LEFT")
  else if control_word = 6 then
    (⟨FORWARD * 1.5, -BACKWARD * 1.5, FORWARD * 1.5, -BACKWARD * 1.5⟩, "TURN-RIGHT")
  else if control_word = 7 then
    (⟨0.0, -FORWARD * 0.5, FORWARD * 1.5, 0.0⟩, "DIAGONAL-LEFT")
  else if control_word = 8 then
    (⟨FORWARD * 1.5, -0.0, 0.0, -FORWARD * 0.5⟩, "DIAGONAL-RIGHT")
  else
    (⟨0.0, 0.0, 0.0, 0.0⟩, "STOP (Detached)")

/-- The drive vector computed by `steer_vehicle` for a command code. -/
def steer_vector (control_word : ℤ) : Vec4 :=
  (steer_branch control_word).1

/-- The action label returned by `steer_vehicle` for a command code. -/
def steer_action (control_word : ℤ) : String :=
  (steer_branch control_word).2

/-- `steer_vehicle(control_word)`: selects the drive vector and label, calls
`set_speeds` on the four motors, and returns the action label. -/
def steer_vehicle (control_word : ℤ) (s : Channels) : Channels × String :=
  let v := steer_vector control_word
  (set_speeds v.fl v.fr v.rl v.rr s, steer_action control_word)

/-- Outcome of one cycle's attempt to read the control file: the file was
absent (`os.path.exists` false), the file was read and yielded `content` (the
raw text as a character sequence, before `strip()`), or the read raised an
exception (caught by the `except Exception` handler). -/
inductive ReadInput where
  | absent : ReadInput
  | content : List Char → ReadInput
  | raised : ReadInput
deriving DecidableEq, Repr

/-- The whitespace characters Python `str.strip()` removes (ASCII range). -/
def pyIsSpace (c : Char) : Bool :=
  c = ' ' || c = '\t' || c = '\n' || c = '\r' || c = '\x0b' || c = '\x0c'

/-- Python `str.strip()`: drop whitespace from both ends. -/
def pyStrip (s : List Char) : List Char :=
  ((s.dropWhile pyIsSpace).reverse.dropWhile pyIsSpace).reverse

/-- Python `str.isdigit()` (restricted to ASCII text): true iff the string is
nonempty and every character is a decimal digit. -/
def pyIsDigit (s : List Char) : Bool :=
  !s.isEmpty && s.all Char.isDigit

/-- Python `int()` on a string of decimal digits. -/
def parseDigits (s : List Char) : ℕ :=
  s.foldl (fun acc c => 10 * acc + (c.toNat - 48)) 0

/-- The read/parse step of one loop cycle: `control_word` starts at 0; if the
file exists its content is read and stripped, and only if `content.isdigit()`
does `control_word` become `int(content)`; a missing file or a raised
exception leaves `control_word` at 0 (an error line is written to stderr). -/
def read_command : ReadInput → ℕ
  | ReadInput.absent => 0
  | ReadInput.raised => 0
  | ReadInput.content s =>
      let t := pyStrip s
      if pyIsDigit t then parseDigits t else 0

/-- Runs the body of the `while True` loop once per input: read the command
word, call `steer_vehicle`, log `(control_word, action)`.  Returns the final
channel states and the log, one entry per cycle. -/
def run_cycles : List ReadInput → Channels → Channels × List (ℕ × String)
  | [], s => (s, [])
  | i :: rest, s =>
      let code := read_command i
      let step := steer_vehicle (code : ℤ) s
      let tail := run_cycles rest step.1
      (tail.1, (code, step.2) :: tail.2)

/-- The `finally` block `for motor in all_motors: motor.value = None;
motor.close()`, with a flag per motor saying whether that motor's `close()`
call raises.  The motor's value is set to `None` before its `close()` is
called; an exception from `close()` propagates out of the `for` loop, so the
remaining motors are not touched.  Returns the resulting channel states and
whether an exception escaped the block. -/
def shutdown_attempt (f1 f2 f3 f4 : Bool) (s : Channels) : Channels × Bool :=
  let s1 : Channels := { s with fl := ChannelState.Detached }
  if f1 then (s1, true) else
  let s2 : Channels := { s1 with fr := ChannelState.Detached }
  if f2 then (s2, true) else
  let s3 : Channels := { s2 with rl := ChannelState.Detached }
  if f3 then (s3, true) else
  let s4 : Channels := { s3 with rr := ChannelState.Detached }
  (s4, f4)

/-- Why the `while True` loop exited: `KeyboardInterrupt` (caught, printed)
or any other exception (propagates after the `finally` block). -/
inductive ExitCause where
  | interrupted : ExitCause
  | fatalError : ExitCause
deriving DecidableEq, Repr

/-- `main()` from the point the loop is entered: run the given cycles, exit
the loop for the given cause, and run the `finally` teardown, in which each
motor's `close()` may raise (flag `f1`–`f4` per motor, as in
`shutdown_attempt`).  Returns the final channel states, the per-cycle log
and the cause. -/
def main_run (inputs : List ReadInput) (cause : ExitCause)
    (f1 f2 f3 f4 : Bool) (s : Channels) :
    Channels × List (ℕ × String) × ExitCause :=
  let r := run_cycles inputs s
  ((shutdown_attempt f1 f2 f3 f4 r.1).1, r.2, cause)

/-- `init_motor(pin)`: constructing `Servo(pin, initial_value=None)` yields a
motor in the detached state; if the constructor raises, the handler prints
and calls `sys.exit(1)`. -/
def init_motor (ok : Bool) : Except Unit ChannelState :=
  if ok then Except.ok ChannelState.Detached else Except.error ()

/-- The module-level initialization `motor_fl = init_motor(...)` through
`motor_rr = init_motor(...)`, run in order.  On the first failure the process
exits (code 1); the error value lists the states of the motors that had
already been initialized at that point. -/
def module_init (ok_fl ok_fr ok_rl ok_rr : Bool) :
    Except (List ChannelState) Channels :=
  match init_motor ok_fl with
  | Except.error _ => Except.error []
  | Except.ok m_fl =>
    match init_motor ok_fr with
    | Except.error _ => Except.error [m_fl]
    | Except.ok m_fr =>
      match init_motor ok_rl with
      | Except.error _ => Except.error [m_fl, m_fr]
      | Except.ok m_rl =>
        match init_motor ok_rr with
        | Except.error _ => Except.error [m_fl, m_fr, m_rl]
        | Except.ok m_rr => Except.ok ⟨m_fl, m_fr, m_rl, m_rr⟩

/-- Result of a whole process run: `initAbort` is `sys.exit(1)` raised during
module-level initialization, before `main()` and its loop ever start, carrying
the states of the already-initialized motors at exit; `finished` carries the
channel states after the `finally` teardown, the cycle log and the exit
cause. -/
inductive ProgResult where
  | initAbort : List ChannelState → ProgResult
  | finished : Channels → List (ℕ × String) → ExitCause → ProgResult
deriving DecidableEq, Repr

/-- The whole process: module-level motor initialization, then `main()` (the
loop runs over `inputs`, exits for `cause`, and the `finally` block runs,
in which each motor's `close()` may raise per the flags `f1`–`f4`). -/
def run_program (ok_fl ok_fr ok_rl ok_rr : Bool)
    (inputs : List ReadInput) (cause : ExitCause)
    (f1 f2 f3 f4 : Bool) : ProgResult :=
  match module_init ok_fl ok_fr ok_rl ok_rr with
  | Except.error pre => ProgResult.initAbort pre
  | Except.ok chans =>
      let r := main_run inputs cause f1 f2 f3 f4 chans
      ProgResult.finished r.1 r.2.1 r.2.2

/-- Base magnitude `FORWARD` as the specification states it (§4.1). -/
def specFORWARD : ℚ := 0.5

/-- Base magnitude `BACKWARD` as the specification states it (§4.1). -/
def specBACKWARD : ℚ := -0.5

/-- The drive-vector table exactly as written in §4.1 of the specification
(rows for codes 1–8; every other code, including 0, gives the zero vector).
This definition follows the spec's words, to be compared with
`steer_vector`, which follows the source. -/
def spec_table (code : ℤ) : Vec4 :=
  if code = 1 then
    ⟨specFORWARD * 1.45, -specFORWARD, specFORWARD * 1.45, -specFORWARD⟩
  else if code = 2 then
    ⟨specBACKWARD, -specBACKWARD * 1.3, specBACKWARD, -specBACKWARD * 1.3⟩
  else if code = 3 then
    ⟨specFORWARD * 1.5, -specBACKWARD * 1.5, specBACKWARD * 0.5, -specFORWARD * 0.5⟩
  else if code = 4 then
    ⟨specBACKWARD * 0.5, -specFORWARD * 0.5, specFORWARD * 1.5, -specBACKWARD * 1.5⟩
  else if code = 5 then
    ⟨specBACKWARD * 1.5, -specFORWARD * 1.5, specBACKWARD * 1.5, -specFORWARD * 1.5⟩
  else if code = 6 then
    ⟨specFORWARD * 1.5, -specBACKWARD * 1.5, specFORWARD * 1.5, -specBACKWARD * 1.5⟩
  else if code = 7 then
    ⟨0.0, -specFORWARD * 0.5, specFORWARD * 1.5, 0.0⟩
  else if code = 8 then
    ⟨specFORWARD * 1.5, -0.0, 0.0, -specFORWARD * 0.5⟩
  else
    ⟨0.0, 0.0, 0.0, 0.0⟩

/-- Behaviour of one `motor.value` assignment in `set_speeds`: the channel
ends detached exactly when the assigned value compares equal to `0.0`, and
otherwise carries exactly the assigned value. -/
theorem apply_spec (x : ℚ) :
    (applyValue x = ChannelState.Detached ↔ x = 0)
    ∧ (x ≠ 0 → applyValue x = ChannelState.Active x) := by
  unfold applyValue
  by_cases h : x = 0 <;> simp [h]

/-- A cycle input on which the read step fails to yield a command code: the
file is absent, the read raised, or the stripped content is not a nonempty
string of decimal digits. -/
def isReadFailure : ReadInput → Bool
  | ReadInput.absent => true
  | ReadInput.raised => true
  | ReadInput.content s => !(pyIsDigit (pyStrip s))

/-- On a failing input the read step leaves `control_word` at 0. -/
theorem read_command_eq_zero_of_failure (i : ReadInput)
    (h : isReadFailure i = true) : read_command i = 0 := by
  cases i with
  | absent => rfl
  | raised => rfl
  | content s =>
      unfold read_command
      unfold isReadFailure at h
      simp only [Bool.not_eq_true'] at h
      simp [h]

/-- A cycle whose read fails applies the STOP row: all channels detached and
the log entry is `(0, "STOP (Detached)")`. -/
theorem steer_zero_detaches (s : Channels) :
    steer_vehicle 0 s = (allDetached, "STOP (Detached)") := by
  norm_num [steer_vehicle, steer_vector, steer_action, steer_branch,
    set_speeds, applyValue, allDetached]

/-- C1: for every integer command code, `steer_vehicle` computes exactly the
drive vector of the spec's §4.1 table: code 1 gives
`(FORWARD*1.45, -FORWARD, FORWARD*1.45, -FORWARD) = (0.725, -0.5, 0.725, -0.5)`,
codes 2–8 give their table rows, and every integer outside 1–8 (0 and
negative integers included) gives the all-zero vector.  The rational
equalities coincide with exact floating-point equality because every product
is a scaling by the exact factor 0.5. -/
theorem drive_mapper_matches_spec_table :
    (∀ n : ℤ, steer_vector n = spec_table n)
    ∧ steer_vector 1 = ⟨0.725, -0.5, 0.725, -0.5⟩
    ∧ ∀ n : ℤ, ¬(1 ≤ n ∧ n ≤ 8) → steer_vector n = ⟨0.0, 0.0, 0.0, 0.0⟩ := by
  refine ⟨?_, ?_, ?_⟩
  · intro n
    unfold steer_vector steer_branch spec_table
    split_ifs <;>
      norm_num [FORWARD, BACKWARD, MAX_SPEED, specFORWARD, specBACKWARD]
  · norm_num [steer_vector, steer_branch, FORWARD, MAX_SPEED]
  · intro n hn
    unfold steer_vector steer_branch
    split_ifs <;> first | rfl | (exfalso; omega)

/-- C1 witness: the mapper at the out-of-range code 99 and at code 1. -/
theorem drive_mapper_matches_spec_table_witness :
    steer_vector 99 = ⟨0.0, 0.0, 0.0, 0.0⟩ :=
  drive_mapper_matches_spec_table.2.2 99 (by decide)

/-- C2: after `set_speeds`, each of the four channels is detached exactly
when its commanded component compares equal to `0.0`, and any nonzero
component (however small) leaves the channel active carrying exactly that
component. -/
theorem channel_detach_iff_zero (v : Vec4) (s : Channels) :
    (((set_speeds v.fl v.fr v.rl v.rr s).fl = ChannelState.Detached ↔ v.fl = 0)
      ∧ (v.fl ≠ 0 →
          (set_speeds v.fl v.fr v.rl v.rr s).fl = ChannelState.Active v.fl))
    ∧ (((set_speeds v.fl v.fr v.rl v.rr s).fr = ChannelState.Detached ↔ v.fr = 0)
      ∧ (v.fr ≠ 0 →
          (set_speeds v.fl v.fr v.rl v.rr s).fr = ChannelState.Active v.fr))
    ∧ (((set_speeds v.fl v.fr v.rl v.rr s).rl = ChannelState.Detached ↔ v.rl = 0)
      ∧ (v.rl ≠ 0 →
          (set_speeds v.fl v.fr v.rl v.rr s).rl = ChannelState.Active v.rl))
    ∧ (((set_speeds v.fl v.fr v.rl v.rr s).rr = ChannelState.Detached ↔ v.rr = 0)
      ∧ (v.rr ≠ 0 →
          (set_speeds v.fl v.fr v.rl v.rr s).rr = ChannelState.Active v.rr)) :=
  ⟨apply_spec v.fl, apply_spec v.fr, apply_spec v.rl, apply_spec v.rr⟩

/-- C2 witness: a tiny nonzero front-left component forces `Active` while a
zero front-right component detaches. -/
theorem channel_detach_iff_zero_witness :
    (set_speeds (1 / 1000000) 0 (-1 / 1000000) 0 allDetached).fl
        = ChannelState.Active (1 / 1000000)
    ∧ (set_speeds (1 / 1000000) 0 (-1 / 1000000) 0 allDetached).fr
        = ChannelState.Detached := by
  have h := channel_detach_iff_zero ⟨1 / 1000000, 0, -1 / 1000000, 0⟩ allDetached
  exact ⟨h.1.2 (by norm_num), h.2.1.1.mpr rfl⟩

/-- C3 counterexample: run one cycle of code 5 (all four channels active),
then run the `finally` teardown with the front-left `close()` raising; the
channels do not all end detached, refuting the claimed failure isolation. -/
theorem shutdown_failure_counterexample :
    (shutdown_attempt true false false false
        (run_cycles [ReadInput.content ['5']] allDetached).1).1
      ≠ allDetached := by
  have h : read_command (ReadInput.content ['5']) = 5 := by decide
  norm_num [run_cycles, h, steer_vehicle, steer_vector, steer_action,
    steer_branch, set_speeds, applyValue, shutdown_attempt, allDetached,
    FORWARD, BACKWARD, MAX_SPEED]
  simp

/-- C3 amended: the `finally` block attempts shutdown on the four channels in
order, detaching each before releasing it; if none of the first three
channels' release calls fails (the last channel's release may still fail,
since its detach precedes it), all four channels end detached.  A failing
release on an earlier channel aborts the remaining channels' shutdown. -/
theorem shutdown_totality_when_releases_succeed (f4 : Bool) (s : Channels) :
    (shutdown_attempt false false false f4 s).1 = allDetached := rfl

/-- C4: if initialization of any of the four channels fails, the process
aborts (`sys.exit(1)`) before `main()` and its control loop ever start, and
every sibling channel initialized before the failure is in the detached
state at exit (each was created with `initial_value=None` and nothing ever
activated it).  This holds for every pattern `f1`–`f4` of release-call
failures, since the loop and its teardown never run. -/
theorem init_failure_releases_siblings
    (o1 o2 o3 o4 : Bool) (inputs : List ReadInput) (cause : ExitCause)
    (f1 f2 f3 f4 : Bool)
    (h : o1 = false ∨ o2 = false ∨ o3 = false ∨ o4 = false) :
    ∃ pre : List ChannelState,
      run_program o1 o2 o3 o4 inputs cause f1 f2 f3 f4
          = ProgResult.initAbort pre
      ∧ ∀ c ∈ pre, c = ChannelState.Detached := by
  cases o1 <;> cases o2 <;> cases o3 <;> cases o4 <;>
    first
      | exact ⟨[], rfl, by simp⟩
      | exact ⟨[ChannelState.Detached], rfl, by simp⟩
      | exact ⟨[ChannelState.Detached, ChannelState.Detached], rfl, by simp⟩
      | exact ⟨[ChannelState.Detached, ChannelState.Detached,
                ChannelState.Detached], rfl, by simp⟩
      | simp_all

/-- C4 witness: the rear-left channel's initialization fails; the process
aborts with the two already-initialized channels detached. -/
theorem init_failure_releases_siblings_witness :
    ∃ pre : List ChannelState,
      run_program true true false true [] ExitCause.interrupted
          false false false false
          = ProgResult.initAbort pre
      ∧ ∀ c ∈ pre, c = ChannelState.Detached :=
  init_failure_releases_siblings true true false true [] ExitCause.interrupted
    false false false false (by decide)

/-- C5: the read step yields a nonzero code only from a file whose stripped
content is a nonempty string of decimal digits (parsed as a non-negative
integer); on every failing input — absent file, raised exception, or any
other content — the cycle substitutes code 0, and for every sequence of N
consecutive failing inputs the loop completes all N cycles, logging
`(0, "STOP (Detached)")` each time and leaving all channels detached. -/
theorem read_failure_degradation :
    (∀ i : ReadInput, isReadFailure i = true → read_command i = 0)
    ∧ (∀ s : List Char, pyIsDigit (pyStrip s) = true →
        read_command (ReadInput.content s) = parseDigits (pyStrip s))
    ∧ ∀ (inputs : List ReadInput) (s : Channels),
        (∀ i ∈ inputs, isReadFailure i = true) →
        (run_cycles inputs s).2
            = List.replicate inputs.length (0, "STOP (Detached)")
        ∧ (inputs ≠ [] → (run_cycles inputs s).1 = allDetached) := by
  refine ⟨read_command_eq_zero_of_failure, ?_, ?_⟩
  · intro s h
    unfold read_command
    simp [h]
  · intro inputs
    induction inputs with
    | nil =>
        intro s _
        exact ⟨rfl, fun h => absurd rfl h⟩
    | cons i rest ih =>
        intro s hall
        have h0 : read_command i = 0 :=
          read_command_eq_zero_of_failure i (hall i (by simp))
        have hrest : ∀ j ∈ rest, isReadFailure j = true :=
          fun j hj => hall j (by simp [hj])
        have hstep : steer_vehicle 0 s = (allDetached, "STOP (Detached)") :=
          steer_zero_detaches s
        obtain ⟨hlog, hstate⟩ := ih allDetached hrest
        refine ⟨?_, fun _ => ?_⟩
        · simp [run_cycles, hstep, h0, hlog, List.replicate_succ]
        · cases rest with
          | nil => simp [run_cycles, h0, hstep]
          | cons j tl =>
              have hfin : (run_cycles (j :: tl) allDetached).1 = allDetached :=
                hstate (by simp)
              simp only [run_cycles, h0, Nat.cast_zero, hstep]
              simpa [run_cycles] using hfin

/-- C5 witness: three consecutive failing reads (absent file, raised
exception, non-digit content) log three STOP cycles and leave all channels
detached. -/
theorem read_failure_degradation_witness :
    (run_cycles [ReadInput.absent, ReadInput.raised,
        ReadInput.content ['4', '2', 'x']] allDetached).2
      = List.replicate 3 (0, "STOP (Detached)") :=
  (read_failure_degradation.2.2
    [ReadInput.absent, ReadInput.raised, ReadInput.content ['4', '2', 'x']]
    allDetached (by decide)).1

/-- C6 counterexample: the mapper's label for code 2 is the source's literal
string `"BACKWART"`, not `"BACKWARD"`, and the label for code 0 is
`"STOP (Detached)"`, not `"STOP"`. -/
theorem steer_action_label_counterexample :
    steer_action 2 ≠ "BACKWARD" ∧ steer_action 0 ≠ "STOP" := by
  exact ⟨by decide, by decide⟩

/-- C6 amended: for every integer command code the mapper returns exactly
the label written in the source: `"FORWARD"` for 1, `"BACKWART"` (sic, the
source's spelling) for 2, `"LEFT"` for 3, `"RIGHT"` for 4, `"TURN-LEFT"` for
5, `"TURN-RIGHT"` for 6, `"DIAGONAL-LEFT"` for 7, `"DIAGONAL-RIGHT"` for 8,
and `"STOP (Detached)"` for 0 and every other integer. -/
theorem steer_action_labels :
    steer_action 1 = "FORWARD" ∧ steer_action 2 = "BACKWART"
    ∧ steer_action 3 = "LEFT" ∧ steer_action 4 = "RIGHT"
    ∧ steer_action 5 = "TURN-LEFT" ∧ steer_action 6 = "TURN-RIGHT"
    ∧ steer_action 7 = "DIAGONAL-LEFT" ∧ steer_action 8 = "DIAGONAL-RIGHT"
    ∧ ∀ n : ℤ, ¬(1 ≤ n ∧ n ≤ 8) → steer_action n = "STOP (Detached)" := by
  refine ⟨by decide, by decide, by decide, by decide, by decide, by decide,
    by decide, by decide, ?_⟩
  intro n hn
  unfold steer_action steer_branch
  split_ifs <;> first | rfl | (exfalso; omega)

/-- C6 amended witness: the label at the out-of-range code 99. -/
theorem steer_action_labels_witness : steer_action 99 = "STOP (Detached)" :=
  steer_action_labels.2.2.2.2.2.2.2.2 99 (by decide)

/-- C7 counterexample: the loop exits by user interruption after one code-5
cycle (all four channels active) and the front-left motor's `close()` raises
during the `finally` teardown; the process finishes with channels that are
not all detached, refuting the unconditional claim. -/
theorem exit_detach_counterexample :
    (main_run [ReadInput.content ['5']] ExitCause.interrupted
        true false false false allDetached).1 ≠ allDetached := by
  have h : read_command (ReadInput.content ['5']) = 5 := by decide
  norm_num [main_run, run_cycles, h, steer_vehicle, steer_vector,
    steer_action, steer_branch, set_speeds, applyValue, shutdown_attempt,
    allDetached, FORWARD, BACKWARD, MAX_SPEED]
  simp

/-- C7 amended: whenever the control loop exits — user interruption or any
other cause, after any number of cycles from any channel states — the
`finally` teardown runs and, provided no release call of the first three
channels fails (the last channel's release may still fail, since its detach
precedes it), every one of the four channels is detached before the process
finishes. -/
theorem all_channels_detached_on_exit (inputs : List ReadInput)
    (cause : ExitCause) (f4 : Bool) (s : Channels) :
    (main_run inputs cause false false false f4 s).1 = allDetached := rfl

/-- C8: for every integer command code each component of the produced drive
vector lies within [-1, 1]; indeed every magnitude is at most 0.75, and 0.75
is attained (front-left component of code 3). -/
theorem drive_vector_within_envelope :
    (∀ n : ℤ, |(steer_vector n).fl| ≤ 1 ∧ |(steer_vector n).fr| ≤ 1
      ∧ |(steer_vector n).rl| ≤ 1 ∧ |(steer_vector n).rr| ≤ 1)
    ∧ (∀ n : ℤ, |(steer_vector n).fl| ≤ 0.75 ∧ |(steer_vector n).fr| ≤ 0.75
      ∧ |(steer_vector n).rl| ≤ 0.75 ∧ |(steer_vector n).rr| ≤ 0.75)
    ∧ (steer_vector 3).fl = 0.75 := by
  have key : ∀ n : ℤ,
      |(steer_vector n).fl| ≤ 0.75 ∧ |(steer_vector n).fr| ≤ 0.75
      ∧ |(steer_vector n).rl| ≤ 0.75 ∧ |(steer_vector n).rr| ≤ 0.75 := by
    intro n
    unfold steer_vector steer_branch
    split_ifs <;> norm_num [FORWARD, BACKWARD, MAX_SPEED, abs]
  refine ⟨fun n => ?_, key, ?_⟩
  · obtain ⟨h1, h2, h3, h4⟩ := key n
    exact ⟨le_trans h1 (by norm_num), le_trans h2 (by norm_num),
      le_trans h3 (by norm_num), le_trans h4 (by norm_num)⟩
  · norm_num [steer_vector, steer_branch, FORWARD, MAX_SPEED]

/-- C9: applying the same four speed values twice in a row via `set_speeds`
leaves the channels in exactly the states one application produces, from any
starting states (`motor.value` assignment overwrites unconditionally). -/
theorem set_speeds_idempotent (a b c d : ℚ) (s : Channels) :
    set_speeds a b c d (set_speeds a b c d s) = set_speeds a b c d s := rfl

/-- C10: the front-right component of the code-8 row is the literal `-0.0`;
it compares equal to `0.0` (as IEEE negative zero does), so `set_speeds`
detaches the front-right channel rather than driving it. -/
theorem code8_fr_negative_zero_detached (s : Channels) :
    (steer_vector 8).fr = -(0 : ℚ)
    ∧ -(0 : ℚ) = 0
    ∧ ((steer_vehicle 8 s).1).fr = ChannelState.Detached := by
  refine ⟨?_, by norm_num, ?_⟩
  · norm_num [steer_vector, steer_branch]
  · norm_num [steer_vehicle, steer_vector, steer_action, steer_branch,
      set_speeds, applyValue]

end GpioControl
